import Mathlib

/-!
# Verification of the `layoutpreset` VS Code extension (`src/extension.ts`)

Shallow embedding of the extension's data model and operations.

* Layout state values (`PanelPosition`, `SidebarPosition`, `LayoutPreset`)
  mirror the TypeScript types at the head of `extension.ts`.
* The host (VS Code) is modelled by `HostConfig`, the three configuration
  keys the code reads; configuration values are raw strings, as
  `workspace.getConfiguration().get<string>` can return any string.
  The host's command-invocation capability is modelled by recording the
  sequence of commands a handler issues (`Command`).
* `globalState` is `Option (List LayoutPreset)` under the single storage
  key `layoutPresets.v1`; `undefined` is `none`.
* Each command handler becomes a pure function from its inputs (stored
  state, host configuration, the user's prompt/pick responses, the clock)
  to a `HandlerResult`: the stored state afterwards, the layout commands
  issued, the messages shown, and whether a selection UI was presented.
-/

/-- Source `type PanelPosition = 'bottom' | 'left' | 'right'`. -/
inductive PanelPosition where
  | bottom
  | left
  | right
deriving DecidableEq, Repr

/-- Source `type SidebarPosition = 'left' | 'right'`. -/
inductive SidebarPosition where
  | left
  | right
deriving DecidableEq, Repr

/-- The string literal a `PanelPosition` value stands for in the source. -/
def PanelPosition.toString : PanelPosition → String
  | .bottom => "bottom"
  | .left => "left"
  | .right => "right"

/-- The string literal a `SidebarPosition` value stands for in the source. -/
def SidebarPosition.toString : SidebarPosition → String
  | .left => "left"
  | .right => "right"

/-- The `panel` field of `interface LayoutPreset`. -/
structure PanelSettings where
  position : PanelPosition
  sizePx : Option Nat
  visible : Bool
deriving DecidableEq, Repr

/-- The `sidebar` field of `interface LayoutPreset`. -/
structure SidebarSettings where
  position : SidebarPosition
  sizePx : Option Nat
  visible : Bool
deriving DecidableEq, Repr

/-- Source `interface LayoutPreset` from `extension.ts`. -/
structure LayoutPreset where
  name : String
  timestamp : Nat
  panel : PanelSettings
  sidebar : SidebarSettings
deriving DecidableEq, Repr

/-- The host configuration keys read by the extension.  A key that is unset
(`undefined` in TypeScript) is `none`; a set key holds an arbitrary string. -/
structure HostConfig where
  sideBarLocation : Option String
  panelDefaultLocation : Option String
  panelLocation : Option String
deriving DecidableEq, Repr

/-- The workbench commands `applyPreset` can issue through
`vscode.commands.executeCommand`. -/
inductive Command where
  | toggleSidebarPosition
  | toggleSidebarVisibility
  | positionPanelBottom
  | positionPanelRight
  | positionPanelLeft
  | togglePanel
deriving DecidableEq, Repr

/-- The panel-position and panel-visibility commands, as opposed to the two
sidebar commands. -/
def Command.isPanelCommand : Command → Bool
  | .toggleSidebarPosition => false
  | .toggleSidebarVisibility => false
  | .positionPanelBottom => true
  | .positionPanelRight => true
  | .positionPanelLeft => true
  | .togglePanel => true

/-- Source `getConfig<T>(key, fallback)`: the configured value when the key is set,
the fallback otherwise (`val === undefined ? fallback : val`). -/
def getConfig (val : Option String) (fallback : String) : String :=
  match val with
  | none => fallback
  | some v => v

/-- JavaScript `a || b` on two optional strings: `a` when it is set and
non-empty (truthy), `b` otherwise. -/
def jsOr (a b : Option String) : Option String :=
  match a with
  | some s => if s = "" then b else some s
  | none => b

/-- Source `isSidebarVisible()`: the code has no way to read sidebar visibility
and returns the conservative default `true`. -/
def isSidebarVisible (_host : HostConfig) : Bool :=
  true

/-- Source `isPanelVisible()`: the code has no way to read panel visibility and
returns the default `true`. -/
def isPanelVisible (_host : HostConfig) : Bool :=
  true

/-- Source `getPanelPosition()`: reads `workbench.panel.defaultLocation`, falling
back (JavaScript `||`) to `workbench.panel.location`; returns the value when
it is `'left'` or `'right'`, and `'bottom'` otherwise. -/
def getPanelPosition (host : HostConfig) : PanelPosition :=
  let pos := jsOr host.panelDefaultLocation host.panelLocation
  match pos with
  | some p =>
    if p = "left" ∨ p = "right" then
      if p = "left" then .left else .right
    else .bottom
  | none => .bottom

/-- Source `captureCurrentLayout(name)`: snapshots the current layout.  The
host clock (`Date.now()`) is passed in as `timestamp`. -/
def captureCurrentLayout (host : HostConfig) (name : String) (timestamp : Nat) :
    LayoutPreset :=
  let sidebarPosition := getConfig host.sideBarLocation "left"
  let sidebarVisible := isSidebarVisible host
  let panelPosition := getPanelPosition host
  let panelVisible := isPanelVisible host
  { name := name
    timestamp := timestamp
    sidebar :=
      { position := if sidebarPosition = "right" then .right else .left
        sizePx := none
        visible := sidebarVisible }
    panel :=
      { position := panelPosition
        sizePx := none
        visible := panelVisible } }

/-- Source `applyPreset(p)`: compares each preset field to the observed state and
returns, in program order, the commands issued. -/
def applyPreset (host : HostConfig) (p : LayoutPreset) : List Command :=
  let currentSidebar := getConfig host.sideBarLocation "left"
  let sidebarPosCmds :=
    if p.sidebar.position.toString ≠ currentSidebar then
      [Command.toggleSidebarPosition]
    else []
  let sidebarVisibleNow := isSidebarVisible host
  let sidebarVisCmds :=
    if p.sidebar.visible ≠ sidebarVisibleNow then
      [Command.toggleSidebarVisibility]
    else []
  let panelPosNow := getPanelPosition host
  let panelPosCmds :=
    if p.panel.position ≠ panelPosNow then
      match p.panel.position with
      | .bottom => [Command.positionPanelBottom]
      | .right => [Command.positionPanelRight]
      | .left => [Command.positionPanelLeft]
    else []
  let panelVisibleNow := isPanelVisible host
  let panelVisCmds :=
    if p.panel.visible ≠ panelVisibleNow then
      [Command.togglePanel]
    else []
  sidebarPosCmds ++ sidebarVisCmds ++ panelPosCmds ++ panelVisCmds

/-- Source `getPresets(context)`: the stored list, or `[]` when nothing is stored. -/
def getPresets (stored : Option (List LayoutPreset)) : List LayoutPreset :=
  match stored with
  | some raw => raw
  | none => []

/-- Observable outcome of one command-handler invocation: the stored state
afterwards, the layout commands issued, the information messages shown, the
labels offered by the quick-pick selection UI (empty when none was
presented), and whether a selection UI was presented at all. -/
structure HandlerResult where
  stored : Option (List LayoutPreset)
  commands : List Command
  messages : List String
  items : List String
  pickerShown : Bool
deriving DecidableEq, Repr

/-- The `layoutPreset.savePreset` handler.  `nameInput` is the input box's
result: `none` when the prompt was dismissed. -/
def savePreset (host : HostConfig) (stored : Option (List LayoutPreset))
    (nameInput : Option String) (ts : Nat) : HandlerResult :=
  match nameInput with
  | none =>
    { stored := stored, commands := [], messages := ["Preset save cancelled."]
      items := [], pickerShown := false }
  | some name =>
    if name = "" then
      { stored := stored, commands := [], messages := ["Preset save cancelled."]
        items := [], pickerShown := false }
    else
      let preset := captureCurrentLayout host name ts
      let list := getPresets stored
      { stored := some (list ++ [preset])
        commands := []
        messages := ["Saved layout preset \"" ++ name ++ "\"."]
        items := []
        pickerShown := false }

/-- The `layoutPreset.listPresets` handler.  `pick` is the quick pick's
result, as the index of the chosen item; `none` when dismissed. -/
def listPresets (stored : Option (List LayoutPreset)) (pick : Option Nat) :
    HandlerResult :=
  let list := getPresets stored
  if list.length = 0 then
    { stored := stored, commands := [], messages := ["No layout presets saved."]
      items := [], pickerShown := false }
  else
    let items := list.map (fun p => p.name)
    match pick with
    | none =>
      { stored := stored, commands := [], messages := [], items := items
        pickerShown := true }
    | some i =>
      match list[i]? with
      | none =>
        { stored := stored, commands := [], messages := [], items := items
          pickerShown := true }
      | some p =>
        { stored := stored, commands := []
          messages := ["Preset: " ++ p.name], items := items, pickerShown := true }

/-- The `layoutPreset.applyPreset` handler. -/
def applyPresetCommand (host : HostConfig) (stored : Option (List LayoutPreset))
    (pick : Option Nat) : HandlerResult :=
  let list := getPresets stored
  if list.length = 0 then
    { stored := stored, commands := [], messages := ["No layout presets saved."]
      items := [], pickerShown := false }
  else
    let items := list.map (fun p => p.name)
    match pick with
    | none =>
      { stored := stored, commands := [], messages := [], items := items
        pickerShown := true }
    | some i =>
      match list[i]? with
      | none =>
        { stored := stored, commands := [], messages := [], items := items
          pickerShown := true }
      | some p =>
        { stored := stored
          commands := applyPreset host p
          messages := ["Applied layout preset \"" ++ p.name ++ "\"."]
          items := items
          pickerShown := true }

/-- The `layoutPreset.deletePreset` handler: `list.splice(pick.idx, 1)`
followed by persisting the list. -/
def deletePreset (stored : Option (List LayoutPreset)) (pick : Option Nat) :
    HandlerResult :=
  let list := getPresets stored
  if list.length = 0 then
    { stored := stored, commands := [], messages := ["No layout presets saved."]
      items := [], pickerShown := false }
  else
    let items := list.map (fun p => p.name)
    match pick with
    | none =>
      { stored := stored, commands := [], messages := [], items := items
        pickerShown := true }
    | some i =>
      match list[i]? with
      | none =>
        { stored := stored, commands := [], messages := [], items := items
          pickerShown := true }
      | some p =>
        { stored := some (list.eraseIdx i)
          commands := []
          messages := ["Deleted preset \"" ++ p.name ++ "\"."]
          items := items
          pickerShown := true }

/-! ## Concrete states used by witnesses and counterexamples -/

/-- A host whose sidebar is configured on the left and whose panel-location
keys are both unset (so the observed panel position is `bottom`). -/
def hostDefault : HostConfig :=
  { sideBarLocation := some "left", panelDefaultLocation := none, panelLocation := none }

/-- A preset matching `hostDefault`'s observed state exactly. -/
def presetMatching : LayoutPreset :=
  { name := "w", timestamp := 0
    panel := { position := .bottom, sizePx := none, visible := true }
    sidebar := { position := .left, sizePx := none, visible := true } }

/-- A preset asking for the panel on the right and hidden. -/
def presetRightHidden : LayoutPreset :=
  { name := "p", timestamp := 0
    panel := { position := .right, sizePx := none, visible := false }
    sidebar := { position := .left, sizePx := none, visible := true } }

/-- A preset asking for the panel on the right, visible. -/
def presetRightVisible : LayoutPreset :=
  { name := "q", timestamp := 0
    panel := { position := .right, sizePx := none, visible := true }
    sidebar := { position := .left, sizePx := none, visible := true } }

/-! ## Claims -/

/-- C1: if, when `applyPreset(P)` runs, the observed live state already
matches `P` exactly (configured sidebar position, observed sidebar
visibility, configured panel position, observed panel visibility), then
`applyPreset` issues no toggle or move commands at all. -/
theorem applyPreset_matching_state_no_commands (host : HostConfig) (p : LayoutPreset)
    (hsp : getConfig host.sideBarLocation "left" = p.sidebar.position.toString)
    (hsv : p.sidebar.visible = isSidebarVisible host)
    (hpp : getPanelPosition host = p.panel.position)
    (hpv : p.panel.visible = isPanelVisible host) :
    applyPreset host p = [] := by
  unfold applyPreset
  rw [hsp, ← hpp, ← hsv, ← hpv]
  simp

/-- Witness for C1 at a concrete host and preset. -/
theorem applyPreset_matching_state_no_commands_witness :
    applyPreset hostDefault presetMatching = [] :=
  applyPreset_matching_state_no_commands hostDefault presetMatching rfl rfl rfl rfl

/-- C4: the preset returned by `captureCurrentLayout` always records
`sidebar.visible = true` and `panel.visible = true`, whatever the host
configuration. -/
theorem captureCurrentLayout_always_visible (host : HostConfig) (name : String) (ts : Nat) :
    (captureCurrentLayout host name ts).sidebar.visible = true ∧
    (captureCurrentLayout host name ts).panel.visible = true :=
  ⟨rfl, rfl⟩

/-- C3: `applyPreset` issues the sidebar-visibility toggle iff the preset's
`sidebar.visible` is `false`, and the panel-visibility toggle iff the
preset's `panel.visible` is `false`, the observed visibility of both
regions being always `true`. -/
theorem applyPreset_visibility_toggle_iff_false (host : HostConfig) (p : LayoutPreset) :
    (Command.toggleSidebarVisibility ∈ applyPreset host p ↔ p.sidebar.visible = false) ∧
    (Command.togglePanel ∈ applyPreset host p ↔ p.panel.visible = false) := by
  unfold applyPreset isSidebarVisible isPanelVisible
  constructor
  · cases hv : p.sidebar.visible <;>
      cases p.panel.position <;>
      simp [List.mem_append]
  · cases hv : p.panel.visible <;>
      cases p.panel.position <;>
      simp [List.mem_append]

/-- C2 as stated is false: with the panel observed at the bottom and a
preset asking for the panel on the right but hidden, `applyPreset` issues
the panel-visibility toggle in addition to the move-panel-right command. -/
theorem applyPreset_panel_right_counterexample :
    presetRightHidden.panel.position = PanelPosition.right ∧
    getPanelPosition hostDefault = PanelPosition.bottom ∧
    applyPreset hostDefault presetRightHidden
      = [Command.positionPanelRight, Command.togglePanel] ∧
    Command.isPanelCommand Command.togglePanel = true ∧
    Command.togglePanel ≠ Command.positionPanelRight := by
  refine ⟨rfl, rfl, ?_, rfl, by decide⟩
  decide

/-- C2 amended: for a preset with `panel.position = right` **and
`panel.visible = true`**, applied while the observed panel position is
`bottom`, the panel-position and panel-visibility commands issued are
exactly the single move-panel-right command. -/
theorem applyPreset_panel_right_from_bottom (host : HostConfig) (p : LayoutPreset)
    (hpos : p.panel.position = PanelPosition.right)
    (hvis : p.panel.visible = true)
    (hcur : getPanelPosition host = PanelPosition.bottom) :
    (applyPreset host p).filter Command.isPanelCommand = [Command.positionPanelRight] := by
  unfold applyPreset isSidebarVisible isPanelVisible
  rw [hcur, hpos, hvis]
  by_cases h1 : p.sidebar.position.toString ≠ getConfig host.sideBarLocation "left" <;>
    by_cases h2 : p.sidebar.visible ≠ true <;>
      simp [h1, h2, List.filter_append, Command.isPanelCommand]

/-- Witness for the amended C2 at a concrete host and preset. -/
theorem applyPreset_panel_right_from_bottom_witness :
    (applyPreset hostDefault presetRightVisible).filter Command.isPanelCommand
      = [Command.positionPanelRight] :=
  applyPreset_panel_right_from_bottom hostDefault presetRightVisible rfl rfl rfl

/-- C5: capture determines positions from host configuration: the captured
sidebar position is the configured sidebar-position setting (defaulting to
`left` when absent), and the captured panel position is read from either of
the two panel-location keys (the first taking precedence when truthy), and
is `bottom` whenever neither key is set or neither holds a recognized
value. -/
theorem captureCurrentLayout_positions_from_config (host : HostConfig)
    (name : String) (ts : Nat) :
    (host.sideBarLocation = none →
      (captureCurrentLayout host name ts).sidebar.position = SidebarPosition.left) ∧
    (host.sideBarLocation = some "left" →
      (captureCurrentLayout host name ts).sidebar.position = SidebarPosition.left) ∧
    (host.sideBarLocation = some "right" →
      (captureCurrentLayout host name ts).sidebar.position = SidebarPosition.right) ∧
    (host.panelDefaultLocation = some "left" →
      (captureCurrentLayout host name ts).panel.position = PanelPosition.left) ∧
    (host.panelDefaultLocation = some "right" →
      (captureCurrentLayout host name ts).panel.position = PanelPosition.right) ∧
    ((host.panelDefaultLocation = none ∨ host.panelDefaultLocation = some "") →
      host.panelLocation = some "left" →
      (captureCurrentLayout host name ts).panel.position = PanelPosition.left) ∧
    ((host.panelDefaultLocation = none ∨ host.panelDefaultLocation = some "") →
      host.panelLocation = some "right" →
      (captureCurrentLayout host name ts).panel.position = PanelPosition.right) ∧
    (host.panelDefaultLocation = none → host.panelLocation = none →
      (captureCurrentLayout host name ts).panel.position = PanelPosition.bottom) ∧
    ((∀ v, host.panelDefaultLocation = some v → v ≠ "left" ∧ v ≠ "right") →
      (∀ v, host.panelLocation = some v → v ≠ "left" ∧ v ≠ "right") →
      (captureCurrentLayout host name ts).panel.position = PanelPosition.bottom) := by
  obtain ⟨sbl, pdl, pl⟩ := host
  refine ⟨?_, ?_, ?_, ?_, ?_, ?_, ?_, ?_, ?_⟩
  · rintro rfl; simp [captureCurrentLayout, getConfig]
  · rintro rfl; simp [captureCurrentLayout, getConfig]
  · rintro rfl; simp [captureCurrentLayout, getConfig]
  · rintro rfl; simp [captureCurrentLayout, getPanelPosition, jsOr]
  · rintro rfl; simp [captureCurrentLayout, getPanelPosition, jsOr]
  · rintro (rfl | rfl) rfl <;> simp [captureCurrentLayout, getPanelPosition, jsOr]
  · rintro (rfl | rfl) rfl <;> simp [captureCurrentLayout, getPanelPosition, jsOr]
  · rintro rfl rfl; simp [captureCurrentLayout, getPanelPosition, jsOr]
  · intro h1 h2
    cases pdl with
    | none =>
      cases pl with
      | none => simp [captureCurrentLayout, getPanelPosition, jsOr]
      | some w =>
        obtain ⟨hw1, hw2⟩ := h2 w rfl
        simp [captureCurrentLayout, getPanelPosition, jsOr, hw1, hw2]
    | some v =>
      obtain ⟨hv1, hv2⟩ := h1 v rfl
      by_cases hv0 : v = ""
      · subst hv0
        cases pl with
        | none => simp [captureCurrentLayout, getPanelPosition, jsOr]
        | some w =>
          obtain ⟨hw1, hw2⟩ := h2 w rfl
          simp [captureCurrentLayout, getPanelPosition, jsOr, hw1, hw2]
      · simp [captureCurrentLayout, getPanelPosition, jsOr, hv0, hv1, hv2]

/-- Witness for C5 at a concrete host configuration. -/
theorem captureCurrentLayout_positions_from_config_witness :
    (captureCurrentLayout ⟨some "right", some "left", none⟩ "w" 0).sidebar.position
        = SidebarPosition.right ∧
    (captureCurrentLayout ⟨some "right", some "left", none⟩ "w" 0).panel.position
        = PanelPosition.left :=
  ⟨(captureCurrentLayout_positions_from_config ⟨some "right", some "left", none⟩ "w" 0).2.2.1
      rfl,
   (captureCurrentLayout_positions_from_config ⟨some "right", some "left", none⟩ "w" 0).2.2.2.1
      rfl⟩

/-- C6: saving with a declined or empty name input aborts with no side
effect: the persisted state is unchanged (same list) and a cancellation
message is the only report. -/
theorem savePreset_cancelled_no_side_effects (host : HostConfig)
    (stored : Option (List LayoutPreset)) (nameInput : Option String) (ts : Nat)
    (h : nameInput = none ∨ nameInput = some "") :
    (savePreset host stored nameInput ts).stored = stored ∧
    getPresets (savePreset host stored nameInput ts).stored = getPresets stored ∧
    (savePreset host stored nameInput ts).messages = ["Preset save cancelled."] := by
  rcases h with rfl | rfl <;> simp [savePreset]

/-- Witness for C6: a declined prompt over a one-element stored list. -/
theorem savePreset_cancelled_no_side_effects_witness :
    (savePreset hostDefault (some [presetMatching]) none 0).stored
        = some [presetMatching] ∧
    getPresets (savePreset hostDefault (some [presetMatching]) none 0).stored
        = getPresets (some [presetMatching]) ∧
    (savePreset hostDefault (some [presetMatching]) none 0).messages
        = ["Preset save cancelled."] :=
  savePreset_cancelled_no_side_effects hostDefault (some [presetMatching]) none 0
    (Or.inl rfl)

/-- C7: saving with a non-empty name appends exactly one preset with that
name to the end of the loaded list and persists the full list; listing
afterwards shows the stored names in insertion order. -/
theorem savePreset_appends_one (host : HostConfig)
    (stored : Option (List LayoutPreset)) (name : String) (ts : Nat)
    (h : name ≠ "") :
    (savePreset host stored (some name) ts).stored
        = some (getPresets stored ++ [captureCurrentLayout host name ts]) ∧
    (getPresets (savePreset host stored (some name) ts).stored).map LayoutPreset.name
        = (getPresets stored).map LayoutPreset.name ++ [name] ∧
    (∀ pick, (listPresets (savePreset host stored (some name) ts).stored pick).items
        = (getPresets (savePreset host stored (some name) ts).stored).map
            LayoutPreset.name) := by
  refine ⟨by simp [savePreset, h], ?_, ?_⟩
  · simp [savePreset, h, getPresets, captureCurrentLayout]
  · intro pick
    have hlen : (getPresets (savePreset host stored (some name) ts).stored).length ≠ 0 := by
      simp [savePreset, h, getPresets]
    unfold listPresets
    cases pick with
    | none => simp [hlen]
    | some i =>
      simp only [hlen, if_false, if_neg hlen]
      cases hx : (getPresets (savePreset host stored (some name) ts).stored)[i]? <;> simp [hx]

/-- Witness for C7: saving "A" then "B" starting from empty storage, then
listing, shows exactly ["A", "B"] in that order. -/
theorem savePreset_appends_one_witness :
    (listPresets (savePreset hostDefault
        (savePreset hostDefault none (some "A") 0).stored (some "B") 1).stored none).items
      = ["A", "B"] := by
  have hA := savePreset_appends_one hostDefault none "A" 0 (by decide)
  have hB := savePreset_appends_one hostDefault
      (savePreset hostDefault none (some "A") 0).stored "B" 1 (by decide)
  rw [hB.2.2 none, hB.2.1, hA.2.1]
  rfl

/-- C8: deleting the entry at a selected (valid) position removes exactly
that entry, leaves every other entry intact, and persists the result;
deleting the only preset persists an empty list. -/
theorem deletePreset_removes_selected (stored : Option (List LayoutPreset)) (i : Nat)
    (hi : i < (getPresets stored).length) :
    (getPresets (deletePreset stored (some i)).stored).length
        = (getPresets stored).length - 1 ∧
    (∀ j, j < i →
      (getPresets (deletePreset stored (some i)).stored)[j]?
        = (getPresets stored)[j]?) ∧
    (∀ j, i ≤ j →
      (getPresets (deletePreset stored (some i)).stored)[j]?
        = (getPresets stored)[j + 1]?) ∧
    ((getPresets stored).length = 1 → (deletePreset stored (some i)).stored = some []) := by
  have hne : ¬ (getPresets stored).length = 0 := by omega
  have hsome : (getPresets stored)[i]? = some ((getPresets stored)[i]) :=
    List.getElem?_eq_getElem hi
  have hdel : (deletePreset stored (some i)).stored
      = some ((getPresets stored).eraseIdx i) := by
    unfold deletePreset
    simp [hne, hsome]
  refine ⟨?_, ?_, ?_, ?_⟩
  · rw [hdel]
    show ((getPresets stored).eraseIdx i).length = (getPresets stored).length - 1
    rw [List.length_eraseIdx, if_pos hi]
  · intro j hj
    rw [hdel]
    simp [getPresets, List.getElem?_eraseIdx, hj]
  · intro j hj
    rw [hdel]
    simp [getPresets, List.getElem?_eraseIdx, Nat.not_lt.mpr hj]
  · intro h1
    have hi0 : i = 0 := by omega
    subst hi0
    have hlen : ((getPresets stored).eraseIdx 0).length = 0 := by
      rw [List.length_eraseIdx]
      simp [h1]
    rw [hdel, List.length_eq_zero.mp hlen]

/-- Witness for C8: deleting the only stored preset leaves an empty
persisted list. -/
theorem deletePreset_removes_selected_witness :
    (deletePreset (some [presetMatching]) (some 0)).stored = some [] :=
  (deletePreset_removes_selected (some [presetMatching]) 0 (by decide)).2.2.2 (by decide)

/-- C9: when the stored preset list is empty, each of the list, apply and
delete handlers reports "No layout presets saved.", presents no selection,
issues no commands, and leaves stored state unchanged. -/
theorem empty_list_reports_and_stops (host : HostConfig)
    (stored : Option (List LayoutPreset)) (pick : Option Nat)
    (h : getPresets stored = []) :
    listPresets stored pick
        = { stored := stored, commands := [], messages := ["No layout presets saved."]
            items := [], pickerShown := false } ∧
    applyPresetCommand host stored pick
        = { stored := stored, commands := [], messages := ["No layout presets saved."]
            items := [], pickerShown := false } ∧
    deletePreset stored pick
        = { stored := stored, commands := [], messages := ["No layout presets saved."]
            items := [], pickerShown := false } := by
  refine ⟨?_, ?_, ?_⟩ <;> simp [listPresets, applyPresetCommand, deletePreset, h]

/-- Witness for C9 with nothing stored and a dismissed picker. -/
theorem empty_list_reports_and_stops_witness :
    listPresets none none
        = { stored := none, commands := [], messages := ["No layout presets saved."]
            items := [], pickerShown := false } ∧
    applyPresetCommand hostDefault none none
        = { stored := none, commands := [], messages := ["No layout presets saved."]
            items := [], pickerShown := false } ∧
    deletePreset none none
        = { stored := none, commands := [], messages := ["No layout presets saved."]
            items := [], pickerShown := false } :=
  empty_list_reports_and_stops hostDefault none none rfl

/-- C10: captured positions are always well-formed, even for configuration
values outside the documented enumerations: any sidebar-location value
other than "right" maps to `left`, and any resolved panel-location value
other than "left"/"right" maps to `bottom` — including a truthy
unrecognized value in the first key that shadows the second key. -/
theorem captureCurrentLayout_position_normalization (host : HostConfig)
    (name : String) (ts : Nat) :
    (((captureCurrentLayout host name ts).sidebar.position = SidebarPosition.left ∨
      (captureCurrentLayout host name ts).sidebar.position = SidebarPosition.right) ∧
     ((captureCurrentLayout host name ts).panel.position = PanelPosition.bottom ∨
      (captureCurrentLayout host name ts).panel.position = PanelPosition.left ∨
      (captureCurrentLayout host name ts).panel.position = PanelPosition.right)) ∧
    (∀ v, host.sideBarLocation = some v → v ≠ "right" →
      (captureCurrentLayout host name ts).sidebar.position = SidebarPosition.left) ∧
    (∀ v, jsOr host.panelDefaultLocation host.panelLocation = some v →
      v ≠ "left" → v ≠ "right" →
      (captureCurrentLayout host name ts).panel.position = PanelPosition.bottom) ∧
    (∀ v w, host.panelDefaultLocation = some v → v ≠ "" → v ≠ "left" → v ≠ "right" →
      host.panelLocation = some w →
      (captureCurrentLayout host name ts).panel.position = PanelPosition.bottom) := by
  refine ⟨⟨?_, ?_⟩, ?_, ?_, ?_⟩
  · cases h : (captureCurrentLayout host name ts).sidebar.position
    · exact Or.inl rfl
    · exact Or.inr rfl
  · cases h : (captureCurrentLayout host name ts).panel.position
    · exact Or.inl rfl
    · exact Or.inr (Or.inl rfl)
    · exact Or.inr (Or.inr rfl)
  · intro v hv hvr
    simp [captureCurrentLayout, getConfig, hv, hvr]
  · intro v hj hv1 hv2
    simp [captureCurrentLayout, getPanelPosition, hj, hv1, hv2]
  · intro v w h1 h0 hl hr h2
    simp [captureCurrentLayout, getPanelPosition, jsOr, h1, h2, h0, hl, hr]

/-- Witness for C10: an unrecognized sidebar value and an unrecognized
truthy first-key panel value shadowing a recognized second key. -/
theorem captureCurrentLayout_position_normalization_witness :
    (captureCurrentLayout ⟨some "banana", some "weird", some "left"⟩ "w" 0).sidebar.position
        = SidebarPosition.left ∧
    (captureCurrentLayout ⟨some "banana", some "weird", some "left"⟩ "w" 0).panel.position
        = PanelPosition.bottom :=
  ⟨(captureCurrentLayout_position_normalization
        ⟨some "banana", some "weird", some "left"⟩ "w" 0).2.1 "banana" rfl (by decide),
   (captureCurrentLayout_position_normalization
        ⟨some "banana", some "weird", some "left"⟩ "w" 0).2.2.2 "weird" "left" rfl
      (by decide) (by decide) (by decide) rfl⟩
